import Mathlib

/-!
Shallow embedding of src/native/c/simd_calc.c (DeniDom SIMD estimate
calculations) over exact rational arithmetic.  Machine doubles are
modelled as rationals, so every floating point operation is exact and
vector reduction order is immaterial; input arrays are total functions
from natural indices to rationals, read only on the range [0, count).
-/

set_option maxHeartbeats 1000000

/-- CalculationSettings from simd_calc.h: four scalar rates
(overhead, profit, vat, rescaling index). -/
structure CalculationSettings where
  overhead_rate : ℚ
  profit_rate : ℚ
  vat_rate : ℚ
  index : ℚ
  deriving DecidableEq

/-- CalculationResult from simd_calc.h: five category totals followed by
overhead, profit, subtotal, vat, total. -/
structure CalculationResult where
  direct_costs : ℚ
  labor_costs : ℚ
  machine_op_costs : ℚ
  material_costs : ℚ
  machine_costs : ℚ
  overhead : ℚ
  profit : ℚ
  subtotal : ℚ
  vat : ℚ
  total : ℚ
  deriving DecidableEq

/-- A 256-bit vector register of four doubles (type m256d in the source),
with lanes modelled as rationals. -/
structure Vec4 where
  v0 : ℚ
  v1 : ℚ
  v2 : ℚ
  v3 : ℚ
  deriving DecidableEq

/-- A 512-bit vector register of eight doubles (type m512d in the source). -/
structure Vec8 where
  v0 : ℚ
  v1 : ℚ
  v2 : ℚ
  v3 : ℚ
  v4 : ℚ
  v5 : ℚ
  v6 : ℚ
  v7 : ℚ
  deriving DecidableEq

/-- mm256 setzero pd. -/
def vzero4 : Vec4 := ⟨0, 0, 0, 0⟩

/-- mm512 setzero pd. -/
def vzero8 : Vec8 := ⟨0, 0, 0, 0, 0, 0, 0, 0⟩

/-- mm256 loadu pd: load four consecutive doubles starting at idx. -/
def load4 (data : ℕ → ℚ) (idx : ℕ) : Vec4 :=
  ⟨data idx, data (idx + 1), data (idx + 2), data (idx + 3)⟩

/-- mm512 loadu pd: load eight consecutive doubles starting at idx. -/
def load8 (data : ℕ → ℚ) (idx : ℕ) : Vec8 :=
  ⟨data idx, data (idx + 1), data (idx + 2), data (idx + 3),
   data (idx + 4), data (idx + 5), data (idx + 6), data (idx + 7)⟩

/-- mm256 fmadd pd: lanewise a * b + acc (exact in rationals). -/
def fmadd4 (a b acc : Vec4) : Vec4 :=
  ⟨a.v0 * b.v0 + acc.v0, a.v1 * b.v1 + acc.v1,
   a.v2 * b.v2 + acc.v2, a.v3 * b.v3 + acc.v3⟩

/-- mm512 fmadd pd: lanewise a * b + acc. -/
def fmadd8 (a b acc : Vec8) : Vec8 :=
  ⟨a.v0 * b.v0 + acc.v0, a.v1 * b.v1 + acc.v1,
   a.v2 * b.v2 + acc.v2, a.v3 * b.v3 + acc.v3,
   a.v4 * b.v4 + acc.v4, a.v5 * b.v5 + acc.v5,
   a.v6 * b.v6 + acc.v6, a.v7 * b.v7 + acc.v7⟩

/-- mm256 add pd: lanewise addition. -/
def add4 (a b : Vec4) : Vec4 :=
  ⟨a.v0 + b.v0, a.v1 + b.v1, a.v2 + b.v2, a.v3 + b.v3⟩

/-- mm512 add pd: lanewise addition. -/
def add8 (a b : Vec8) : Vec8 :=
  ⟨a.v0 + b.v0, a.v1 + b.v1, a.v2 + b.v2, a.v3 + b.v3,
   a.v4 + b.v4, a.v5 + b.v5, a.v6 + b.v6, a.v7 + b.v7⟩

/-- mm256 mul pd: lanewise multiplication. -/
def mul4 (a b : Vec4) : Vec4 :=
  ⟨a.v0 * b.v0, a.v1 * b.v1, a.v2 * b.v2, a.v3 * b.v3⟩

/-- mm512 mul pd: lanewise multiplication. -/
def mul8 (a b : Vec8) : Vec8 :=
  ⟨a.v0 * b.v0, a.v1 * b.v1, a.v2 * b.v2, a.v3 * b.v3,
   a.v4 * b.v4, a.v5 * b.v5, a.v6 * b.v6, a.v7 * b.v7⟩

/-- hsum256 pd from the source: low half (v0, v1), high half (v2, v3),
sum128 = (v0 + v2, v1 + v3), then hadd collapses to (v0 + v2) + (v1 + v3). -/
def hsum256_pd (v : Vec4) : ℚ := (v.v0 + v.v2) + (v.v1 + v.v3)

/-- mm512 reduce add pd: horizontal sum of the eight lanes.  The exact
association used by the hardware is immaterial here because rational
addition is associative and commutative. -/
def reduce_add8 (v : Vec8) : ℚ :=
  v.v0 + v.v1 + v.v2 + v.v3 + v.v4 + v.v5 + v.v6 + v.v7

/-- The five running category sums accumulated by every estimate tier. -/
structure CategorySums where
  direct : ℚ
  labor : ℚ
  machine_op : ℚ
  material : ℚ
  machine : ℚ
  deriving DecidableEq

/-- The shared tail of all three estimate tiers (source lines 128 to 144,
repeated verbatim in each tier): apply the settings index to the five
accumulated sums, derive overhead and profit from the labor total, then
subtotal, vat and total. -/
def finalize (sums : CategorySums) (settings : CalculationSettings) : CalculationResult :=
  let direct_costs := sums.direct * settings.index
  let labor_costs := sums.labor * settings.index
  let machine_op_costs := sums.machine_op * settings.index
  let material_costs := sums.material * settings.index
  let machine_costs := sums.machine * settings.index
  let labor_total := labor_costs + machine_op_costs
  let overhead := labor_total * settings.overhead_rate
  let profit := labor_total * settings.profit_rate
  let subtotal := direct_costs + overhead + profit
  let vat := subtotal * settings.vat_rate
  let total := subtotal + vat
  ⟨direct_costs, labor_costs, machine_op_costs, material_costs, machine_costs,
   overhead, profit, subtotal, vat, total⟩

/-- The scalar accumulation loop of calculate_estimate_scalar (source
lines 119 to 126): n sequential iterations, each adding
quantities[i] * cost[i] into all five category sums. -/
def scalarLoop (q d l mo mat m : ℕ → ℚ) : ℕ → CategorySums
  | 0 => ⟨0, 0, 0, 0, 0⟩
  | n + 1 =>
    let s := scalarLoop q d l mo mat m n
    ⟨s.direct + q n * d n,
     s.labor + q n * l n,
     s.machine_op + q n * mo n,
     s.material + q n * mat n,
     s.machine + q n * m n⟩

/-- calculate_estimate_scalar (source lines 107 to 146). -/
def calculate_estimate_scalar (q d l mo mat m : ℕ → ℚ) (count : ℕ)
    (settings : CalculationSettings) : CalculationResult :=
  finalize (scalarLoop q d l mo mat m count) settings

/-- The five Vec4 accumulators of the AVX2 main loop. -/
structure VecSums4 where
  direct : Vec4
  labor : Vec4
  machine_op : Vec4
  material : Vec4
  machine : Vec4
  deriving DecidableEq

/-- The five Vec8 accumulators of the AVX-512 main loop. -/
structure VecSums8 where
  direct : Vec8
  labor : Vec8
  machine_op : Vec8
  material : Vec8
  machine : Vec8
  deriving DecidableEq

/-- The AVX2 fused-multiply-accumulate loop (source lines 189 to 206, and,
with a nonzero start offset, the AVX2 remainder loop of the AVX-512 tier,
source lines 315 to 324): n iterations, iteration i loading four lanes of
each array at index start + i * 4 and accumulating q * cost into the five
vector accumulators. -/
def avx2MainLoop (q d l mo mat m : ℕ → ℚ) (start : ℕ) : ℕ → VecSums4
  | 0 => ⟨vzero4, vzero4, vzero4, vzero4, vzero4⟩
  | n + 1 =>
    let s := avx2MainLoop q d l mo mat m start n
    let idx := start + n * 4
    let qv := load4 q idx
    ⟨fmadd4 qv (load4 d idx) s.direct,
     fmadd4 qv (load4 l idx) s.labor,
     fmadd4 qv (load4 mo idx) s.machine_op,
     fmadd4 qv (load4 mat idx) s.material,
     fmadd4 qv (load4 m idx) s.machine⟩

/-- The AVX-512 fused-multiply-accumulate loop (source lines 277 to 294):
n iterations, iteration i loading eight lanes at index i * 8. -/
def avx512MainLoop (q d l mo mat m : ℕ → ℚ) : ℕ → VecSums8
  | 0 => ⟨vzero8, vzero8, vzero8, vzero8, vzero8⟩
  | n + 1 =>
    let s := avx512MainLoop q d l mo mat m n
    let idx := n * 8
    let qv := load8 q idx
    ⟨fmadd8 qv (load8 d idx) s.direct,
     fmadd8 qv (load8 l idx) s.labor,
     fmadd8 qv (load8 mo idx) s.machine_op,
     fmadd8 qv (load8 mat idx) s.material,
     fmadd8 qv (load8 m idx) s.machine⟩

/-- The scalar remainder loop shared by the vector tiers (source lines 216
to 223 and 336 to 343): starting from the already reduced sums, n further
sequential iterations at indices start, start + 1, ... -/
def remLoop (q d l mo mat m : ℕ → ℚ) (start : ℕ) (init : CategorySums) :
    ℕ → CategorySums
  | 0 => init
  | n + 1 =>
    let s := remLoop q d l mo mat m start init n
    let i := start + n
    ⟨s.direct + q i * d i,
     s.labor + q i * l i,
     s.machine_op + q i * mo i,
     s.material + q i * mat i,
     s.machine + q i * m i⟩

/-- calculate_estimate_avx2 (source lines 163 to 243): counts below the
native width 4 delegate to the scalar tier; otherwise the main loop runs
over count / 4 full chunks, each accumulator is horizontally reduced once,
and the scalar remainder loop handles the rest. -/
def calculate_estimate_avx2 (q d l mo mat m : ℕ → ℚ) (count : ℕ)
    (settings : CalculationSettings) : CalculationResult :=
  if count < 4 then
    calculate_estimate_scalar q d l mo mat m count settings
  else
    let chunks := count / 4
    let vs := avx2MainLoop q d l mo mat m 0 chunks
    let reduced : CategorySums :=
      ⟨hsum256_pd vs.direct, hsum256_pd vs.labor, hsum256_pd vs.machine_op,
       hsum256_pd vs.material, hsum256_pd vs.machine⟩
    let sums := remLoop q d l mo mat m (chunks * 4) reduced (count - chunks * 4)
    finalize sums settings

/-- calculate_estimate_avx512 (source lines 251 to 363): counts below the
native width 8 delegate to the AVX2 tier; otherwise the main loop runs over
count / 8 full chunks, the accumulators are reduced, then a remainder of at
least 4 elements goes through one pass of the AVX2 loop before the final
scalar remainder loop. -/
def calculate_estimate_avx512 (q d l mo mat m : ℕ → ℚ) (count : ℕ)
    (settings : CalculationSettings) : CalculationResult :=
  if count < 8 then
    calculate_estimate_avx2 q d l mo mat m count settings
  else
    let chunks := count / 8
    let vs := avx512MainLoop q d l mo mat m chunks
    let reduced : CategorySums :=
      ⟨reduce_add8 vs.direct, reduce_add8 vs.labor, reduce_add8 vs.machine_op,
       reduce_add8 vs.material, reduce_add8 vs.machine⟩
    let remainder_start := chunks * 8
    if 4 ≤ count - remainder_start then
      let avx2_chunks := (count - remainder_start) / 4
      let rv := avx2MainLoop q d l mo mat m remainder_start avx2_chunks
      let reduced2 : CategorySums :=
        ⟨reduced.direct + hsum256_pd rv.direct,
         reduced.labor + hsum256_pd rv.labor,
         reduced.machine_op + hsum256_pd rv.machine_op,
         reduced.material + hsum256_pd rv.material,
         reduced.machine + hsum256_pd rv.machine⟩
      let remainder_start2 := remainder_start + avx2_chunks * 4
      let sums := remLoop q d l mo mat m remainder_start2 reduced2
        (count - remainder_start2)
      finalize sums settings
    else
      let sums := remLoop q d l mo mat m remainder_start reduced
        (count - remainder_start)
      finalize sums settings

/-- The register quadruple returned by one cpuid query. -/
structure CpuidRegs where
  eax : ℕ
  ebx : ℕ
  ecx : ℕ
  edx : ℕ

/-- The processor capability environment: the cpuid instruction as a pure
function of leaf and subleaf (capability bits are static for a run). -/
structure Cpu where
  cpuid : ℕ → ℕ → CpuidRegs

/-- denidom_has_avx512 (source lines 57 to 73): leaf 0 must report at
least function 7, then bit 16 of EBX of leaf 7 subleaf 0 is tested. -/
def denidom_has_avx512 (cpu : Cpu) : Bool :=
  let r0 := cpu.cpuid 0 0
  if r0.eax < 7 then false
  else (cpu.cpuid 7 0).ebx.testBit 16

/-- denidom_has_avx2 (source lines 75 to 89): leaf 0 must report at least
function 7, then bit 5 of EBX of leaf 7 subleaf 0 is tested. -/
def denidom_has_avx2 (cpu : Cpu) : Bool :=
  let r0 := cpu.cpuid 0 0
  if r0.eax < 7 then false
  else (cpu.cpuid 7 0).ebx.testBit 5

/-- denidom_has_fma (source lines 91 to 101): bit 12 of ECX of leaf 1. -/
def denidom_has_fma (cpu : Cpu) : Bool :=
  (cpu.cpuid 1 0).ecx.testBit 12

/-- calculate_estimate_auto (source lines 613 to 644): probe the wide tier
first, then the narrow tier, falling back to scalar, forwarding the
arguments unchanged. -/
def calculate_estimate_auto (cpu : Cpu) (q d l mo mat m : ℕ → ℚ) (count : ℕ)
    (settings : CalculationSettings) : CalculationResult :=
  if denidom_has_avx512 cpu then
    calculate_estimate_avx512 q d l mo mat m count settings
  else if denidom_has_avx2 cpu then
    calculate_estimate_avx2 q d l mo mat m count settings
  else
    calculate_estimate_scalar q d l mo mat m count settings

/-- mm256 storeu pd: write the four lanes of v at indices idx to idx + 3
of the buffer. -/
def store4 (buf : ℕ → ℚ) (idx : ℕ) (v : Vec4) : ℕ → ℚ := fun j =>
  if j = idx then v.v0
  else if j = idx + 1 then v.v1
  else if j = idx + 2 then v.v2
  else if j = idx + 3 then v.v3
  else buf j

/-- mm512 storeu pd: write the eight lanes of v at indices idx to idx + 7. -/
def store8 (buf : ℕ → ℚ) (idx : ℕ) (v : Vec8) : ℕ → ℚ := fun j =>
  if j = idx then v.v0
  else if j = idx + 1 then v.v1
  else if j = idx + 2 then v.v2
  else if j = idx + 3 then v.v3
  else if j = idx + 4 then v.v4
  else if j = idx + 5 then v.v5
  else if j = idx + 6 then v.v6
  else if j = idx + 7 then v.v7
  else buf j

/-- The four-wide elementwise loop of calculate_items (source lines 401 to
408, and 438 to 445 with a nonzero start): n iterations, iteration i
storing (q * c) * k for the four lanes at index start + i * 4. -/
def itemsLoop4 (q c k : ℕ → ℚ) (start : ℕ) (buf : ℕ → ℚ) : ℕ → (ℕ → ℚ)
  | 0 => buf
  | n + 1 =>
    let idx := start + n * 4
    store4 (itemsLoop4 q c k start buf n) idx
      (mul4 (mul4 (load4 q idx) (load4 c idx)) (load4 k idx))

/-- The eight-wide elementwise loop of calculate_items_avx512 (source
lines 428 to 435). -/
def itemsLoop8 (q c k : ℕ → ℚ) (start : ℕ) (buf : ℕ → ℚ) : ℕ → (ℕ → ℚ)
  | 0 => buf
  | n + 1 =>
    let idx := start + n * 8
    store8 (itemsLoop8 q c k start buf n) idx
      (mul8 (mul8 (load8 q idx) (load8 c idx)) (load8 k idx))

/-- The scalar tail of the elementwise kernels (source lines 411 to 413
and 448 to 450): n iterations writing results[start + i]. -/
def itemsScalarLoop (q c k : ℕ → ℚ) (start : ℕ) (buf : ℕ → ℚ) : ℕ → (ℕ → ℚ)
  | 0 => buf
  | n + 1 =>
    let prev := itemsScalarLoop q c k start buf n
    let i := start + n
    fun j => if j = i then q i * c i * k i else prev j

/-- calculate_items_avx2 (source lines 391 to 414): full four-wide chunks,
then the scalar tail; returns the updated results buffer. -/
def calculate_items_avx2 (q c k : ℕ → ℚ) (results : ℕ → ℚ) (count : ℕ) :
    ℕ → ℚ :=
  let chunks := count / 4
  let buf := itemsLoop4 q c k 0 results chunks
  itemsScalarLoop q c k (chunks * 4) buf (count - chunks * 4)

/-- calculate_items_avx512 (source lines 418 to 451): full eight-wide
chunks, then four-wide chunks over the remainder, then the scalar tail. -/
def calculate_items_avx512 (q c k : ℕ → ℚ) (results : ℕ → ℚ) (count : ℕ) :
    ℕ → ℚ :=
  let chunks8 := count / 8
  let buf1 := itemsLoop8 q c k 0 results chunks8
  let i1 := chunks8 * 8
  let chunks4 := (count - i1) / 4
  let buf2 := itemsLoop4 q c k i1 buf1 chunks4
  let i2 := i1 + chunks4 * 4
  itemsScalarLoop q c k i2 buf2 (count - i2)

/-- The vector accumulation loop of fast_sum_avx2 (source lines 494 to
497): n iterations adding four lanes at index i * 4. -/
def sumLoop4 (data : ℕ → ℚ) : ℕ → Vec4
  | 0 => vzero4
  | n + 1 => add4 (sumLoop4 data n) (load4 data (n * 4))

/-- The vector accumulation loop of fast_sum_avx512 (source lines 457 to
460): n iterations adding eight lanes at index i * 8. -/
def sumLoop8 (data : ℕ → ℚ) : ℕ → Vec8
  | 0 => vzero8
  | n + 1 => add8 (sumLoop8 data n) (load8 data (n * 8))

/-- The vector loop of dot_product_simd (source lines 512 to 516): n
iterations of fmadd over four lanes of each input at index i * 4. -/
def dotLoop4 (a b : ℕ → ℚ) : ℕ → Vec4
  | 0 => vzero4
  | n + 1 => fmadd4 (load4 a (n * 4)) (load4 b (n * 4)) (dotLoop4 a b n)

/-- The scalar tail of the sum kernels: n iterations adding data[start + i]
onto the running scalar sum. -/
def tailSum (data : ℕ → ℚ) (start : ℕ) (init : ℚ) : ℕ → ℚ
  | 0 => init
  | n + 1 => tailSum data start init n + data (start + n)

/-- The scalar tail of the dot product: n iterations adding
a[start + i] * b[start + i] onto the running scalar sum. -/
def tailDot (a b : ℕ → ℚ) (start : ℕ) (init : ℚ) : ℕ → ℚ
  | 0 => init
  | n + 1 => tailDot a b start init n + a (start + n) * b (start + n)

/-- fast_sum_avx2 (source lines 490 to 506): vector loop over count / 4
full chunks, one horizontal reduction, scalar tail on the remainder. -/
def fast_sum_avx2 (data : ℕ → ℚ) (count : ℕ) : ℚ :=
  let chunks := count / 4
  tailSum data (chunks * 4) (hsum256_pd (sumLoop4 data chunks))
    (count - chunks * 4)

/-- fast_sum_avx512 (source lines 453 to 470): vector loop over count / 8
full chunks, one horizontal reduction, scalar tail on the remainder. -/
def fast_sum_avx512 (data : ℕ → ℚ) (count : ℕ) : ℚ :=
  let chunks := count / 8
  tailSum data (chunks * 8) (reduce_add8 (sumLoop8 data chunks))
    (count - chunks * 8)

/-- dot_product_simd (source lines 508 to 525): fmadd loop over count / 4
full chunks, one horizontal reduction, scalar tail on the remainder. -/
def dot_product_simd (a b : ℕ → ℚ) (count : ℕ) : ℚ :=
  let chunks := count / 4
  tailDot a b (chunks * 4) (hsum256_pd (dotLoop4 a b chunks))
    (count - chunks * 4)

/-- denidom_default_settings (source lines 674 to 681). -/
def denidom_default_settings : CalculationSettings :=
  ⟨12 / 100, 8 / 100, 20 / 100, 1⟩

/-- The straightforward sequential left-to-right sum of data[0..n), the
reference the spec compares the sum kernels against. -/
def seqSum (data : ℕ → ℚ) : ℕ → ℚ
  | 0 => 0
  | n + 1 => seqSum data n + data n

/-- The straightforward sequential accumulation of a[i] * b[i] over
[0, n), the reference for the dot product. -/
def seqDot (a b : ℕ → ℚ) : ℕ → ℚ
  | 0 => 0
  | n + 1 => seqDot a b n + a n * b n

/-! Helper lemmas: each loop computes a range sum. -/

/-- A generic single-accumulator form of one Vec4 fmadd stream of the AVX2
main loop, used to characterise the five accumulators one at a time. -/
def vecAccum4 (a b : ℕ → ℚ) (s : ℕ) : ℕ → Vec4
  | 0 => vzero4
  | n + 1 => fmadd4 (load4 a (s + n * 4)) (load4 b (s + n * 4)) (vecAccum4 a b s n)

/-- A generic single-accumulator form of one Vec8 fmadd stream of the
AVX-512 main loop. -/
def vecAccum8 (a b : ℕ → ℚ) : ℕ → Vec8
  | 0 => vzero8
  | n + 1 => fmadd8 (load8 a (n * 8)) (load8 b (n * 8)) (vecAccum8 a b n)

lemma sum_range_succ_mul4 (f : ℕ → ℚ) (n : ℕ) :
    ∑ i in Finset.range ((n + 1) * 4), f i =
      (∑ i in Finset.range (n * 4), f i) +
        (f (n * 4) + f (n * 4 + 1) + f (n * 4 + 2) + f (n * 4 + 3)) := by
  have h : (n + 1) * 4 = n * 4 + 1 + 1 + 1 + 1 := by ring
  rw [h, Finset.sum_range_succ, Finset.sum_range_succ, Finset.sum_range_succ,
    Finset.sum_range_succ]
  ring

lemma sum_range_succ_mul8 (f : ℕ → ℚ) (n : ℕ) :
    ∑ i in Finset.range ((n + 1) * 8), f i =
      (∑ i in Finset.range (n * 8), f i) +
        (f (n * 8) + f (n * 8 + 1) + f (n * 8 + 2) + f (n * 8 + 3) +
         f (n * 8 + 4) + f (n * 8 + 5) + f (n * 8 + 6) + f (n * 8 + 7)) := by
  have h : (n + 1) * 8 = n * 8 + 1 + 1 + 1 + 1 + 1 + 1 + 1 + 1 := by ring
  rw [h, Finset.sum_range_succ, Finset.sum_range_succ, Finset.sum_range_succ,
    Finset.sum_range_succ, Finset.sum_range_succ, Finset.sum_range_succ,
    Finset.sum_range_succ, Finset.sum_range_succ]
  ring

lemma hsum_vecAccum4 (a b : ℕ → ℚ) (s n : ℕ) :
    hsum256_pd (vecAccum4 a b s n) =
      ∑ i in Finset.range (n * 4), a (s + i) * b (s + i) := by
  induction n with
  | zero => simp [vecAccum4, vzero4, hsum256_pd]
  | succ n ih =>
    rw [sum_range_succ_mul4, ← ih]
    simp only [vecAccum4, fmadd4, load4, hsum256_pd]
    simp only [← Nat.add_assoc]
    ring

lemma reduce_vecAccum8 (a b : ℕ → ℚ) (n : ℕ) :
    reduce_add8 (vecAccum8 a b n) =
      ∑ i in Finset.range (n * 8), a i * b i := by
  induction n with
  | zero => simp [vecAccum8, vzero8, reduce_add8]
  | succ n ih =>
    rw [sum_range_succ_mul8, ← ih]
    simp only [vecAccum8, fmadd8, load8, reduce_add8]
    ring

lemma hsum_sumLoop4 (data : ℕ → ℚ) (n : ℕ) :
    hsum256_pd (sumLoop4 data n) = ∑ i in Finset.range (n * 4), data i := by
  induction n with
  | zero => simp [sumLoop4, vzero4, hsum256_pd]
  | succ n ih =>
    rw [sum_range_succ_mul4, ← ih]
    simp only [sumLoop4, add4, load4, hsum256_pd]
    ring

lemma reduce_sumLoop8 (data : ℕ → ℚ) (n : ℕ) :
    reduce_add8 (sumLoop8 data n) = ∑ i in Finset.range (n * 8), data i := by
  induction n with
  | zero => simp [sumLoop8, vzero8, reduce_add8]
  | succ n ih =>
    rw [sum_range_succ_mul8, ← ih]
    simp only [sumLoop8, add8, load8, reduce_add8]
    ring

lemma hsum_dotLoop4 (a b : ℕ → ℚ) (n : ℕ) :
    hsum256_pd (dotLoop4 a b n) = ∑ i in Finset.range (n * 4), a i * b i := by
  induction n with
  | zero => simp [dotLoop4, vzero4, hsum256_pd]
  | succ n ih =>
    rw [sum_range_succ_mul4, ← ih]
    simp only [dotLoop4, fmadd4, load4, hsum256_pd]
    ring

lemma seqSum_eq_sum (data : ℕ → ℚ) (n : ℕ) :
    seqSum data n = ∑ i in Finset.range n, data i := by
  induction n with
  | zero => simp [seqSum]
  | succ n ih => rw [Finset.sum_range_succ, seqSum, ih]

lemma seqDot_eq_sum (a b : ℕ → ℚ) (n : ℕ) :
    seqDot a b n = ∑ i in Finset.range n, a i * b i := by
  induction n with
  | zero => simp [seqDot]
  | succ n ih => rw [Finset.sum_range_succ, seqDot, ih]

lemma tailSum_eq (data : ℕ → ℚ) (s : ℕ) (init : ℚ) (n : ℕ) :
    tailSum data s init n = init + ∑ i in Finset.range n, data (s + i) := by
  induction n with
  | zero => simp [tailSum]
  | succ n ih => rw [Finset.sum_range_succ, tailSum, ih]; ring

lemma tailDot_eq (a b : ℕ → ℚ) (s : ℕ) (init : ℚ) (n : ℕ) :
    tailDot a b s init n =
      init + ∑ i in Finset.range n, a (s + i) * b (s + i) := by
  induction n with
  | zero => simp [tailDot]
  | succ n ih => rw [Finset.sum_range_succ, tailDot, ih]; ring

lemma range_sum_split (f : ℕ → ℚ) (a n : ℕ) (h : a ≤ n) :
    ∑ i in Finset.range n, f i =
      (∑ i in Finset.range a, f i) + ∑ i in Finset.range (n - a), f (a + i) := by
  have h2 : n = a + (n - a) := by omega
  conv_lhs => rw [h2]
  exact Finset.sum_range_add f a (n - a)
lemma avx2MainLoop_eq (q d l mo mat m : ℕ → ℚ) (s n : ℕ) :
    avx2MainLoop q d l mo mat m s n =
      ⟨vecAccum4 q d s n, vecAccum4 q l s n, vecAccum4 q mo s n,
       vecAccum4 q mat s n, vecAccum4 q m s n⟩ := by
  induction n with
  | zero => rfl
  | succ n ih => simp only [avx2MainLoop, vecAccum4, ih]

lemma avx512MainLoop_eq (q d l mo mat m : ℕ → ℚ) (n : ℕ) :
    avx512MainLoop q d l mo mat m n =
      ⟨vecAccum8 q d n, vecAccum8 q l n, vecAccum8 q mo n,
       vecAccum8 q mat n, vecAccum8 q m n⟩ := by
  induction n with
  | zero => rfl
  | succ n ih => simp only [avx512MainLoop, vecAccum8, ih]

lemma remLoop_eq (q d l mo mat m : ℕ → ℚ) (s : ℕ) (init : CategorySums) (n : ℕ) :
    remLoop q d l mo mat m s init n =
      ⟨tailDot q d s init.direct n, tailDot q l s init.labor n,
       tailDot q mo s init.machine_op n, tailDot q mat s init.material n,
       tailDot q m s init.machine n⟩ := by
  induction n with
  | zero => rfl
  | succ n ih => simp only [remLoop, tailDot, ih]

lemma scalarLoop_eq (q d l mo mat m : ℕ → ℚ) (n : ℕ) :
    scalarLoop q d l mo mat m n =
      ⟨seqDot q d n, seqDot q l n, seqDot q mo n, seqDot q mat n, seqDot q m n⟩ := by
  induction n with
  | zero => rfl
  | succ n ih => simp only [scalarLoop, seqDot, ih]

lemma chunked4_seqDot (a b : ℕ → ℚ) (count : ℕ) :
    tailDot a b (count / 4 * 4) (hsum256_pd (vecAccum4 a b 0 (count / 4)))
      (count - count / 4 * 4) = seqDot a b count := by
  rw [tailDot_eq, hsum_vecAccum4, seqDot_eq_sum,
    range_sum_split (fun i => a i * b i) (count / 4 * 4) count
      (Nat.div_mul_le_self count 4)]
  simp

lemma avx2_eq_scalar (q d l mo mat m : ℕ → ℚ) (count : ℕ)
    (settings : CalculationSettings) :
    calculate_estimate_avx2 q d l mo mat m count settings =
      calculate_estimate_scalar q d l mo mat m count settings := by
  by_cases h : count < 4
  · simp only [calculate_estimate_avx2, if_pos h]
  · simp only [calculate_estimate_avx2, if_neg h]
    rw [avx2MainLoop_eq, remLoop_eq]
    unfold calculate_estimate_scalar
    rw [scalarLoop_eq]
    simp only [chunked4_seqDot]

lemma sum_split3 (f : ℕ → ℚ) (x y n : ℕ) (hx : x ≤ n) (hy : y ≤ n - x) :
    ∑ i in Finset.range n, f i =
      ((∑ i in Finset.range x, f i) + ∑ i in Finset.range y, f (x + i)) +
        ∑ i in Finset.range (n - (x + y)), f (x + y + i) := by
  rw [range_sum_split f x n hx, range_sum_split (fun i => f (x + i)) y (n - x) hy]
  have h1 : n - x - y = n - (x + y) := by omega
  rw [h1, add_assoc]
  simp only [← Nat.add_assoc]

lemma chunked8_seqDot (a b : ℕ → ℚ) (count : ℕ) :
    tailDot a b (count / 8 * 8) (reduce_add8 (vecAccum8 a b (count / 8)))
      (count - count / 8 * 8) = seqDot a b count := by
  rw [tailDot_eq, reduce_vecAccum8, seqDot_eq_sum,
    range_sum_split (fun i => a i * b i) (count / 8 * 8) count
      (Nat.div_mul_le_self count 8)]

lemma chunked8_mid_seqDot (a b : ℕ → ℚ) (count : ℕ) :
    tailDot a b (count / 8 * 8 + (count - count / 8 * 8) / 4 * 4)
      (reduce_add8 (vecAccum8 a b (count / 8)) +
        hsum256_pd (vecAccum4 a b (count / 8 * 8) ((count - count / 8 * 8) / 4)))
      (count - (count / 8 * 8 + (count - count / 8 * 8) / 4 * 4)) =
      seqDot a b count := by
  rw [tailDot_eq, reduce_vecAccum8, hsum_vecAccum4, seqDot_eq_sum,
    sum_split3 (fun i => a i * b i) (count / 8 * 8)
      ((count - count / 8 * 8) / 4 * 4) count
      (Nat.div_mul_le_self count 8) (Nat.div_mul_le_self (count - count / 8 * 8) 4)]

lemma avx512_eq_scalar (q d l mo mat m : ℕ → ℚ) (count : ℕ)
    (settings : CalculationSettings) :
    calculate_estimate_avx512 q d l mo mat m count settings =
      calculate_estimate_scalar q d l mo mat m count settings := by
  by_cases h : count < 8
  · simp only [calculate_estimate_avx512, if_pos h]
    exact avx2_eq_scalar q d l mo mat m count settings
  · simp only [calculate_estimate_avx512, if_neg h]
    rw [avx512MainLoop_eq]
    by_cases h4 : 4 ≤ count - count / 8 * 8
    · rw [if_pos h4, avx2MainLoop_eq, remLoop_eq]
      unfold calculate_estimate_scalar
      rw [scalarLoop_eq]
      simp only [chunked8_mid_seqDot]
    · rw [if_neg h4, remLoop_eq]
      unfold calculate_estimate_scalar
      rw [scalarLoop_eq]
      simp only [chunked8_seqDot]
lemma fast_sum_avx2_eq_seqSum (data : ℕ → ℚ) (count : ℕ) :
    fast_sum_avx2 data count = seqSum data count := by
  simp only [fast_sum_avx2]
  rw [tailSum_eq, hsum_sumLoop4, seqSum_eq_sum,
    range_sum_split data (count / 4 * 4) count (Nat.div_mul_le_self count 4)]

lemma fast_sum_avx512_eq_seqSum (data : ℕ → ℚ) (count : ℕ) :
    fast_sum_avx512 data count = seqSum data count := by
  simp only [fast_sum_avx512]
  rw [tailSum_eq, reduce_sumLoop8, seqSum_eq_sum,
    range_sum_split data (count / 8 * 8) count (Nat.div_mul_le_self count 8)]

lemma dot_product_simd_eq_seqDot (a b : ℕ → ℚ) (count : ℕ) :
    dot_product_simd a b count = seqDot a b count := by
  simp only [dot_product_simd]
  rw [tailDot_eq, hsum_dotLoop4, seqDot_eq_sum,
    range_sum_split (fun i => a i * b i) (count / 4 * 4) count
      (Nat.div_mul_le_self count 4)]

lemma auto_eq_scalar (cpu : Cpu) (q d l mo mat m : ℕ → ℚ) (count : ℕ)
    (settings : CalculationSettings) :
    calculate_estimate_auto cpu q d l mo mat m count settings =
      calculate_estimate_scalar q d l mo mat m count settings := by
  unfold calculate_estimate_auto
  split_ifs
  · exact avx512_eq_scalar q d l mo mat m count settings
  · exact avx2_eq_scalar q d l mo mat m count settings
  · rfl

lemma calculate_estimate_scalar_as_finalize (q d l mo mat m : ℕ → ℚ)
    (count : ℕ) (settings : CalculationSettings) :
    calculate_estimate_scalar q d l mo mat m count settings =
      finalize
        ⟨∑ i in Finset.range count, q i * d i,
         ∑ i in Finset.range count, q i * l i,
         ∑ i in Finset.range count, q i * mo i,
         ∑ i in Finset.range count, q i * mat i,
         ∑ i in Finset.range count, q i * m i⟩ settings := by
  unfold calculate_estimate_scalar
  rw [scalarLoop_eq]
  simp only [seqDot_eq_sum]

lemma finalize_subtotal (sums : CategorySums) (settings : CalculationSettings) :
    (finalize sums settings).subtotal =
      (finalize sums settings).direct_costs + (finalize sums settings).overhead +
        (finalize sums settings).profit := rfl

lemma finalize_total (sums : CategorySums) (settings : CalculationSettings) :
    (finalize sums settings).total =
      (finalize sums settings).subtotal + (finalize sums settings).vat := rfl
lemma store4_out (buf : ℕ → ℚ) (idx : ℕ) (v : Vec4) (j : ℕ)
    (h : j < idx ∨ idx + 4 ≤ j) : store4 buf idx v j = buf j := by
  simp only [store4]
  split_ifs <;> first | rfl | omega

lemma store8_out (buf : ℕ → ℚ) (idx : ℕ) (v : Vec8) (j : ℕ)
    (h : j < idx ∨ idx + 8 ≤ j) : store8 buf idx v j = buf j := by
  simp only [store8]
  split_ifs <;> first | rfl | omega

lemma itemsLoop4_out (q c k : ℕ → ℚ) (start : ℕ) (buf : ℕ → ℚ) (n : ℕ) :
    ∀ j, (j < start ∨ start + n * 4 ≤ j) →
      itemsLoop4 q c k start buf n j = buf j := by
  induction n with
  | zero => intro j _; rfl
  | succ n ih =>
    intro j h
    simp only [itemsLoop4]
    rw [store4_out _ _ _ _ (by omega)]
    exact ih j (by omega)

lemma itemsLoop8_out (q c k : ℕ → ℚ) (start : ℕ) (buf : ℕ → ℚ) (n : ℕ) :
    ∀ j, (j < start ∨ start + n * 8 ≤ j) →
      itemsLoop8 q c k start buf n j = buf j := by
  induction n with
  | zero => intro j _; rfl
  | succ n ih =>
    intro j h
    simp only [itemsLoop8]
    rw [store8_out _ _ _ _ (by omega)]
    exact ih j (by omega)

lemma itemsScalarLoop_out (q c k : ℕ → ℚ) (start : ℕ) (buf : ℕ → ℚ) (n : ℕ) :
    ∀ j, (j < start ∨ start + n ≤ j) →
      itemsScalarLoop q c k start buf n j = buf j := by
  induction n with
  | zero => intro j _; rfl
  | succ n ih =>
    intro j h
    simp only [itemsScalarLoop]
    rw [if_neg (by omega)]
    exact ih j (by omega)

lemma itemsLoop4_in (q c k : ℕ → ℚ) (start : ℕ) (buf : ℕ → ℚ) (n : ℕ) :
    ∀ j, start ≤ j → j < start + n * 4 →
      itemsLoop4 q c k start buf n j = q j * c j * k j := by
  induction n with
  | zero => intro j h1 h2; omega
  | succ n ih =>
    intro j h1 h2
    simp only [itemsLoop4]
    by_cases hc : j < start + n * 4
    · rw [store4_out _ _ _ _ (by omega)]
      exact ih j h1 hc
    · have hj : j = start + n * 4 ∨ j = start + n * 4 + 1 ∨
          j = start + n * 4 + 2 ∨ j = start + n * 4 + 3 := by omega
      rcases hj with h | h | h | h <;> subst h <;>
        simp only [store4, mul4, load4] <;> split_ifs <;> first | rfl | omega

lemma itemsLoop8_in (q c k : ℕ → ℚ) (start : ℕ) (buf : ℕ → ℚ) (n : ℕ) :
    ∀ j, start ≤ j → j < start + n * 8 →
      itemsLoop8 q c k start buf n j = q j * c j * k j := by
  induction n with
  | zero => intro j h1 h2; omega
  | succ n ih =>
    intro j h1 h2
    simp only [itemsLoop8]
    by_cases hc : j < start + n * 8
    · rw [store8_out _ _ _ _ (by omega)]
      exact ih j h1 hc
    · have hj : j = start + n * 8 ∨ j = start + n * 8 + 1 ∨
          j = start + n * 8 + 2 ∨ j = start + n * 8 + 3 ∨
          j = start + n * 8 + 4 ∨ j = start + n * 8 + 5 ∨
          j = start + n * 8 + 6 ∨ j = start + n * 8 + 7 := by omega
      rcases hj with h | h | h | h | h | h | h | h <;> subst h <;>
        simp only [store8, mul8, load8] <;> split_ifs <;> first | rfl | omega

lemma itemsScalarLoop_in (q c k : ℕ → ℚ) (start : ℕ) (buf : ℕ → ℚ) (n : ℕ) :
    ∀ j, start ≤ j → j < start + n →
      itemsScalarLoop q c k start buf n j = q j * c j * k j := by
  induction n with
  | zero => intro j h1 h2; omega
  | succ n ih =>
    intro j h1 h2
    simp only [itemsScalarLoop]
    by_cases hc : j = start + n
    · rw [if_pos hc, hc]
    · rw [if_neg hc]
      exact ih j h1 (by omega)

lemma calculate_items_avx2_in (q c k : ℕ → ℚ) (buf : ℕ → ℚ) (count j : ℕ)
    (h : j < count) : calculate_items_avx2 q c k buf count j = q j * c j * k j := by
  simp only [calculate_items_avx2]
  by_cases hc : j < count / 4 * 4
  · rw [itemsScalarLoop_out _ _ _ _ _ _ j (by omega)]
    exact itemsLoop4_in _ _ _ _ _ _ j (Nat.zero_le j) (by omega)
  · exact itemsScalarLoop_in _ _ _ _ _ _ j (by omega) (by omega)

lemma calculate_items_avx2_frame (q c k : ℕ → ℚ) (buf : ℕ → ℚ) (count j : ℕ)
    (h : count ≤ j) : calculate_items_avx2 q c k buf count j = buf j := by
  simp only [calculate_items_avx2]
  rw [itemsScalarLoop_out _ _ _ _ _ _ j (by omega)]
  exact itemsLoop4_out _ _ _ _ _ _ j (by omega)

lemma calculate_items_avx512_in (q c k : ℕ → ℚ) (buf : ℕ → ℚ) (count j : ℕ)
    (h : j < count) : calculate_items_avx512 q c k buf count j = q j * c j * k j := by
  simp only [calculate_items_avx512]
  by_cases h8 : j < count / 8 * 8
  · rw [itemsScalarLoop_out _ _ _ _ _ _ j (by omega),
      itemsLoop4_out _ _ _ _ _ _ j (by omega)]
    exact itemsLoop8_in _ _ _ _ _ _ j (Nat.zero_le j) (by omega)
  · by_cases h4 : j < count / 8 * 8 + (count - count / 8 * 8) / 4 * 4
    · rw [itemsScalarLoop_out _ _ _ _ _ _ j (by omega)]
      exact itemsLoop4_in _ _ _ _ _ _ j (by omega) (by omega)
    · exact itemsScalarLoop_in _ _ _ _ _ _ j (by omega) (by omega)

lemma calculate_items_avx512_frame (q c k : ℕ → ℚ) (buf : ℕ → ℚ) (count j : ℕ)
    (h : count ≤ j) : calculate_items_avx512 q c k buf count j = buf j := by
  simp only [calculate_items_avx512]
  rw [itemsScalarLoop_out _ _ _ _ _ _ j (by omega),
    itemsLoop4_out _ _ _ _ _ _ j (by omega)]
  exact itemsLoop8_out _ _ _ _ _ _ j (by omega)
lemma scalar_zero_count (q d l mo mat m : ℕ → ℚ) (settings : CalculationSettings) :
    calculate_estimate_scalar q d l mo mat m 0 settings =
      ⟨0, 0, 0, 0, 0, 0, 0, 0, 0, 0⟩ := by
  simp [calculate_estimate_scalar, scalarLoop, finalize]

/-- Elementwise scaling of every field of a result record, the right hand
side of the linearity property. -/
def scaleResult (kc : ℚ) (r : CalculationResult) : CalculationResult :=
  ⟨kc * r.direct_costs, kc * r.labor_costs, kc * r.machine_op_costs,
   kc * r.material_costs, kc * r.machine_costs, kc * r.overhead,
   kc * r.profit, kc * r.subtotal, kc * r.vat, kc * r.total⟩

lemma sum_mul_left (kc : ℚ) (a b : ℕ → ℚ) (n : ℕ) :
    ∑ i in Finset.range n, a i * (kc * b i) =
      kc * ∑ i in Finset.range n, a i * b i := by
  rw [Finset.mul_sum]
  exact Finset.sum_congr rfl (fun i _ => by ring)

lemma scalar_scale (kc : ℚ) (q d l mo mat m : ℕ → ℚ) (count : ℕ)
    (settings : CalculationSettings) :
    calculate_estimate_scalar q (fun i => kc * d i) (fun i => kc * l i)
        (fun i => kc * mo i) (fun i => kc * mat i) (fun i => kc * m i)
        count settings =
      scaleResult kc (calculate_estimate_scalar q d l mo mat m count settings) := by
  rw [calculate_estimate_scalar_as_finalize, calculate_estimate_scalar_as_finalize]
  simp only [sum_mul_left]
  simp only [finalize, scaleResult, CalculationResult.mk.injEq]
  refine ⟨by ring, by ring, by ring, by ring, by ring,
    by ring, by ring, by ring, by ring, by ring⟩

/-- The five category totals of a result record are non-negative. -/
def categoriesNonneg (r : CalculationResult) : Prop :=
  0 ≤ r.direct_costs ∧ 0 ≤ r.labor_costs ∧ 0 ≤ r.machine_op_costs ∧
    0 ≤ r.material_costs ∧ 0 ≤ r.machine_costs

instance (r : CalculationResult) : Decidable (categoriesNonneg r) := by
  unfold categoriesNonneg
  infer_instance

lemma sum_prod_nonneg (a b : ℕ → ℚ) (n : ℕ)
    (ha : ∀ i < n, 0 ≤ a i) (hb : ∀ i < n, 0 ≤ b i) :
    0 ≤ ∑ i in Finset.range n, a i * b i :=
  Finset.sum_nonneg fun i hi =>
    mul_nonneg (ha i (Finset.mem_range.mp hi)) (hb i (Finset.mem_range.mp hi))

lemma scalar_categories_nonneg (q d l mo mat m : ℕ → ℚ) (count : ℕ)
    (settings : CalculationSettings)
    (hq : ∀ i < count, 0 ≤ q i) (hd : ∀ i < count, 0 ≤ d i)
    (hl : ∀ i < count, 0 ≤ l i) (hmo : ∀ i < count, 0 ≤ mo i)
    (hmat : ∀ i < count, 0 ≤ mat i) (hm : ∀ i < count, 0 ≤ m i)
    (hidx : 0 ≤ settings.index) :
    categoriesNonneg (calculate_estimate_scalar q d l mo mat m count settings) := by
  rw [calculate_estimate_scalar_as_finalize]
  refine ⟨?_, ?_, ?_, ?_, ?_⟩ <;>
    exact mul_nonneg (sum_prod_nonneg _ _ _ hq (by assumption)) hidx

lemma scalar_identities (q d l mo mat m : ℕ → ℚ) (count : ℕ)
    (settings : CalculationSettings) :
    (calculate_estimate_scalar q d l mo mat m count settings).subtotal =
        (calculate_estimate_scalar q d l mo mat m count settings).direct_costs +
          (calculate_estimate_scalar q d l mo mat m count settings).overhead +
          (calculate_estimate_scalar q d l mo mat m count settings).profit ∧
      (calculate_estimate_scalar q d l mo mat m count settings).total =
        (calculate_estimate_scalar q d l mo mat m count settings).subtotal +
          (calculate_estimate_scalar q d l mo mat m count settings).vat :=
  ⟨finalize_subtotal _ _, finalize_total _ _⟩

/-- Both additive bookkeeping identities of a result record: subtotal is
the sum of direct costs, overhead and profit, and total is subtotal plus
vat, as plain equalities of the stored fields. -/
def additiveIdentities (r : CalculationResult) : Prop :=
  r.subtotal = r.direct_costs + r.overhead + r.profit ∧
    r.total = r.subtotal + r.vat

/-- C1: for every count, every six input arrays and every settings record,
calculate_estimate_avx2 and calculate_estimate_avx512 return exactly the
result of the sequential reference calculate_estimate_scalar under the
exact rational embedding; in particular this covers every count from 0
through 17 and hence all remainder shapes of the chunked loops. -/
theorem claim_C1_tier_equivalence (q d l mo mat m : ℕ → ℚ) (count : ℕ)
    (settings : CalculationSettings) :
    calculate_estimate_avx2 q d l mo mat m count settings =
        calculate_estimate_scalar q d l mo mat m count settings ∧
      calculate_estimate_avx512 q d l mo mat m count settings =
        calculate_estimate_scalar q d l mo mat m count settings :=
  ⟨avx2_eq_scalar q d l mo mat m count settings,
   avx512_eq_scalar q d l mo mat m count settings⟩

/-- C2: a tier called with count below its native vector width delegates
the whole call to the next tier down and returns its result unchanged:
calculate_estimate_avx2 with count below 4 returns exactly the scalar
result, and calculate_estimate_avx512 with count below 8 returns exactly
the avx2 result. -/
theorem claim_C2_delegation (q d l mo mat m : ℕ → ℚ) (count : ℕ)
    (settings : CalculationSettings) :
    (count < 4 →
      calculate_estimate_avx2 q d l mo mat m count settings =
        calculate_estimate_scalar q d l mo mat m count settings) ∧
    (count < 8 →
      calculate_estimate_avx512 q d l mo mat m count settings =
        calculate_estimate_avx2 q d l mo mat m count settings) := by
  constructor
  · intro h
    simp only [calculate_estimate_avx2, if_pos h]
  · intro h
    simp only [calculate_estimate_avx512, if_pos h]

/-- Witness for C2 at counts 3 and 7 with concrete inputs. -/
theorem claim_C2_delegation_witness :
    calculate_estimate_avx2 (fun i => (i : ℚ)) (fun i => (i : ℚ)) (fun i => (i : ℚ))
        (fun i => (i : ℚ)) (fun i => (i : ℚ)) (fun i => (i : ℚ)) 3
        denidom_default_settings =
      calculate_estimate_scalar (fun i => (i : ℚ)) (fun i => (i : ℚ)) (fun i => (i : ℚ))
        (fun i => (i : ℚ)) (fun i => (i : ℚ)) (fun i => (i : ℚ)) 3
        denidom_default_settings ∧
    calculate_estimate_avx512 (fun i => (i : ℚ)) (fun i => (i : ℚ)) (fun i => (i : ℚ))
        (fun i => (i : ℚ)) (fun i => (i : ℚ)) (fun i => (i : ℚ)) 7
        denidom_default_settings =
      calculate_estimate_avx2 (fun i => (i : ℚ)) (fun i => (i : ℚ)) (fun i => (i : ℚ))
        (fun i => (i : ℚ)) (fun i => (i : ℚ)) (fun i => (i : ℚ)) 7
        denidom_default_settings :=
  ⟨(claim_C2_delegation (fun i => (i : ℚ)) (fun i => (i : ℚ)) (fun i => (i : ℚ))
      (fun i => (i : ℚ)) (fun i => (i : ℚ)) (fun i => (i : ℚ)) 3
      denidom_default_settings).1 (by decide),
   (claim_C2_delegation (fun i => (i : ℚ)) (fun i => (i : ℚ)) (fun i => (i : ℚ))
      (fun i => (i : ℚ)) (fun i => (i : ℚ)) (fun i => (i : ℚ)) 7
      denidom_default_settings).2 (by decide)⟩

/-- C3: calculate_estimate_auto forwards its arguments unchanged to
exactly the tier selected by the feature probe: the avx512 tier when
denidom_has_avx512 is true, else the avx2 tier when denidom_has_avx2 is
true, else the scalar tier; the choice depends only on the probe booleans
of the processor environment, never on the input data. -/
theorem claim_C3_auto_dispatch (cpu : Cpu) (q d l mo mat m : ℕ → ℚ)
    (count : ℕ) (settings : CalculationSettings) :
    (denidom_has_avx512 cpu = true →
      calculate_estimate_auto cpu q d l mo mat m count settings =
        calculate_estimate_avx512 q d l mo mat m count settings) ∧
    (denidom_has_avx512 cpu = false → denidom_has_avx2 cpu = true →
      calculate_estimate_auto cpu q d l mo mat m count settings =
        calculate_estimate_avx2 q d l mo mat m count settings) ∧
    (denidom_has_avx512 cpu = false → denidom_has_avx2 cpu = false →
      calculate_estimate_auto cpu q d l mo mat m count settings =
        calculate_estimate_scalar q d l mo mat m count settings) := by
  refine ⟨fun h1 => ?_, fun h1 h2 => ?_, fun h1 h2 => ?_⟩ <;>
    simp [calculate_estimate_auto, h1]
  · simp [h2]
  · simp [h2]

/-- Witness for C3 on three concrete processor environments: one with the
avx512 bit, one with only the avx2 bit, and one reporting no leaf 7. -/
theorem claim_C3_auto_dispatch_witness :
    calculate_estimate_auto ⟨fun _ _ => ⟨7, 65568, 0, 0⟩⟩ (fun _ => 1) (fun _ => 1)
        (fun _ => 1) (fun _ => 1) (fun _ => 1) (fun _ => 1) 2
        denidom_default_settings =
      calculate_estimate_avx512 (fun _ => 1) (fun _ => 1) (fun _ => 1)
        (fun _ => 1) (fun _ => 1) (fun _ => 1) 2 denidom_default_settings ∧
    calculate_estimate_auto ⟨fun _ _ => ⟨7, 32, 0, 0⟩⟩ (fun _ => 1) (fun _ => 1)
        (fun _ => 1) (fun _ => 1) (fun _ => 1) (fun _ => 1) 2
        denidom_default_settings =
      calculate_estimate_avx2 (fun _ => 1) (fun _ => 1) (fun _ => 1)
        (fun _ => 1) (fun _ => 1) (fun _ => 1) 2 denidom_default_settings ∧
    calculate_estimate_auto ⟨fun _ _ => ⟨0, 0, 0, 0⟩⟩ (fun _ => 1) (fun _ => 1)
        (fun _ => 1) (fun _ => 1) (fun _ => 1) (fun _ => 1) 2
        denidom_default_settings =
      calculate_estimate_scalar (fun _ => 1) (fun _ => 1) (fun _ => 1)
        (fun _ => 1) (fun _ => 1) (fun _ => 1) 2 denidom_default_settings :=
  ⟨(claim_C3_auto_dispatch ⟨fun _ _ => ⟨7, 65568, 0, 0⟩⟩ (fun _ => 1) (fun _ => 1)
      (fun _ => 1) (fun _ => 1) (fun _ => 1) (fun _ => 1) 2
      denidom_default_settings).1 (by decide),
   (claim_C3_auto_dispatch ⟨fun _ _ => ⟨7, 32, 0, 0⟩⟩ (fun _ => 1) (fun _ => 1)
      (fun _ => 1) (fun _ => 1) (fun _ => 1) (fun _ => 1) 2
      denidom_default_settings).2.1 (by decide) (by decide),
   (claim_C3_auto_dispatch ⟨fun _ _ => ⟨0, 0, 0, 0⟩⟩ (fun _ => 1) (fun _ => 1)
      (fun _ => 1) (fun _ => 1) (fun _ => 1) (fun _ => 1) 2
      denidom_default_settings).2.2 (by decide) (by decide)⟩

/-- C4: every result returned by any estimate tier satisfies the exact
field equalities subtotal = direct_costs + overhead + profit and
total = subtotal + vat. -/
theorem claim_C4_additive_identities (cpu : Cpu) (q d l mo mat m : ℕ → ℚ)
    (count : ℕ) (settings : CalculationSettings) :
    additiveIdentities (calculate_estimate_scalar q d l mo mat m count settings) ∧
    additiveIdentities (calculate_estimate_avx2 q d l mo mat m count settings) ∧
    additiveIdentities (calculate_estimate_avx512 q d l mo mat m count settings) ∧
    additiveIdentities (calculate_estimate_auto cpu q d l mo mat m count settings) := by
  refine ⟨?_, ?_, ?_, ?_⟩
  · exact scalar_identities q d l mo mat m count settings
  · rw [avx2_eq_scalar]
    exact scalar_identities q d l mo mat m count settings
  · rw [avx512_eq_scalar]
    exact scalar_identities q d l mo mat m count settings
  · rw [auto_eq_scalar]
    exact scalar_identities q d l mo mat m count settings

/-- C5: with count equal to 0 every estimate tier returns the result
record whose ten fields are all 0, for every settings record and every
processor environment. -/
theorem claim_C5_zero_count (cpu : Cpu) (q d l mo mat m : ℕ → ℚ)
    (settings : CalculationSettings) :
    calculate_estimate_scalar q d l mo mat m 0 settings =
        ⟨0, 0, 0, 0, 0, 0, 0, 0, 0, 0⟩ ∧
    calculate_estimate_avx2 q d l mo mat m 0 settings =
        ⟨0, 0, 0, 0, 0, 0, 0, 0, 0, 0⟩ ∧
    calculate_estimate_avx512 q d l mo mat m 0 settings =
        ⟨0, 0, 0, 0, 0, 0, 0, 0, 0, 0⟩ ∧
    calculate_estimate_auto cpu q d l mo mat m 0 settings =
        ⟨0, 0, 0, 0, 0, 0, 0, 0, 0, 0⟩ := by
  refine ⟨scalar_zero_count q d l mo mat m settings, ?_, ?_, ?_⟩
  · rw [avx2_eq_scalar]
    exact scalar_zero_count q d l mo mat m settings
  · rw [avx512_eq_scalar]
    exact scalar_zero_count q d l mo mat m settings
  · rw [auto_eq_scalar]
    exact scalar_zero_count q d l mo mat m settings

/-- C6: both elementwise kernels write the triple product
quantities[i] * unit_costs[i] * coefficients[i] at every index i below
count, for every count and every caller supplied results buffer. -/
theorem claim_C6_items_correct (q c k : ℕ → ℚ) (buf : ℕ → ℚ) (count i : ℕ)
    (h : i < count) :
    calculate_items_avx2 q c k buf count i = q i * c i * k i ∧
    calculate_items_avx512 q c k buf count i = q i * c i * k i :=
  ⟨calculate_items_avx2_in q c k buf count i h,
   calculate_items_avx512_in q c k buf count i h⟩

/-- Witness for C6 on the worked example of the spec: quantities 2 3 4 5,
unit costs all 1, coefficients all 10, count 4 gives 20 30 40 50. -/
theorem claim_C6_items_correct_witness :
    calculate_items_avx2 (fun i => (i : ℚ) + 2) (fun _ => 1)
        (fun _ => 10) (fun _ => 0) 4 1 = 30 ∧
    calculate_items_avx512 (fun i => (i : ℚ) + 2) (fun _ => 1)
        (fun _ => 10) (fun _ => 0) 4 3 = 50 := by
  constructor
  · rw [(claim_C6_items_correct (fun i => (i : ℚ) + 2) (fun _ => 1)
      (fun _ => 10) (fun _ => 0) 4 1 (by decide)).1]
    norm_num
  · rw [(claim_C6_items_correct (fun i => (i : ℚ) + 2) (fun _ => 1)
      (fun _ => 10) (fun _ => 0) 4 3 (by decide)).2]
    norm_num

/-- C7: fast_sum_avx2 and fast_sum_avx512 equal the sequential left to
right sum of the first count elements, and dot_product_simd equals the
sequential accumulation of the pairwise products, for every count
including the counts that are not multiples of the vector width. -/
theorem claim_C7_sum_kernels (data a b : ℕ → ℚ) (count : ℕ) :
    fast_sum_avx2 data count = seqSum data count ∧
    fast_sum_avx512 data count = seqSum data count ∧
    dot_product_simd a b count = seqDot a b count :=
  ⟨fast_sum_avx2_eq_seqSum data count,
   fast_sum_avx512_eq_seqSum data count,
   dot_product_simd_eq_seqDot a b count⟩

/-- C8: scaling every one of the five unit cost arrays elementwise by a
constant scales every field of the result of every estimate tier by that
constant, holding quantities, count and settings fixed. -/
theorem claim_C8_linearity (kc : ℚ) (cpu : Cpu) (q d l mo mat m : ℕ → ℚ)
    (count : ℕ) (settings : CalculationSettings) :
    calculate_estimate_scalar q (fun i => kc * d i) (fun i => kc * l i)
        (fun i => kc * mo i) (fun i => kc * mat i) (fun i => kc * m i)
        count settings =
      scaleResult kc (calculate_estimate_scalar q d l mo mat m count settings) ∧
    calculate_estimate_avx2 q (fun i => kc * d i) (fun i => kc * l i)
        (fun i => kc * mo i) (fun i => kc * mat i) (fun i => kc * m i)
        count settings =
      scaleResult kc (calculate_estimate_avx2 q d l mo mat m count settings) ∧
    calculate_estimate_avx512 q (fun i => kc * d i) (fun i => kc * l i)
        (fun i => kc * mo i) (fun i => kc * mat i) (fun i => kc * m i)
        count settings =
      scaleResult kc (calculate_estimate_avx512 q d l mo mat m count settings) ∧
    calculate_estimate_auto cpu q (fun i => kc * d i) (fun i => kc * l i)
        (fun i => kc * mo i) (fun i => kc * mat i) (fun i => kc * m i)
        count settings =
      scaleResult kc (calculate_estimate_auto cpu q d l mo mat m count settings) := by
  refine ⟨?_, ?_, ?_, ?_⟩
  · exact scalar_scale kc q d l mo mat m count settings
  · rw [avx2_eq_scalar, avx2_eq_scalar]
    exact scalar_scale kc q d l mo mat m count settings
  · rw [avx512_eq_scalar, avx512_eq_scalar]
    exact scalar_scale kc q d l mo mat m count settings
  · rw [auto_eq_scalar, auto_eq_scalar]
    exact scalar_scale kc q d l mo mat m count settings

/-- C9: when every element of the six input arrays read by the call and
the four settings rates, in particular the index multiplier, are non
negative, the five category totals returned by every estimate tier are
non negative. -/
theorem claim_C9_category_nonneg (cpu : Cpu) (q d l mo mat m : ℕ → ℚ)
    (count : ℕ) (settings : CalculationSettings)
    (hq : ∀ i < count, 0 ≤ q i) (hd : ∀ i < count, 0 ≤ d i)
    (hl : ∀ i < count, 0 ≤ l i) (hmo : ∀ i < count, 0 ≤ mo i)
    (hmat : ∀ i < count, 0 ≤ mat i) (hm : ∀ i < count, 0 ≤ m i)
    (ho : 0 ≤ settings.overhead_rate) (hp : 0 ≤ settings.profit_rate)
    (hv : 0 ≤ settings.vat_rate) (hidx : 0 ≤ settings.index) :
    categoriesNonneg (calculate_estimate_scalar q d l mo mat m count settings) ∧
    categoriesNonneg (calculate_estimate_avx2 q d l mo mat m count settings) ∧
    categoriesNonneg (calculate_estimate_avx512 q d l mo mat m count settings) ∧
    categoriesNonneg (calculate_estimate_auto cpu q d l mo mat m count settings) := by
  have hs := scalar_categories_nonneg q d l mo mat m count settings
    hq hd hl hmo hmat hm hidx
  refine ⟨hs, ?_, ?_, ?_⟩
  · rw [avx2_eq_scalar]
    exact hs
  · rw [avx512_eq_scalar]
    exact hs
  · rw [auto_eq_scalar]
    exact hs

/-- Witness for C9 on concrete non-negative inputs with count 2 and the
default settings. -/
theorem claim_C9_category_nonneg_witness :
    categoriesNonneg (calculate_estimate_scalar (fun _ => 1) (fun _ => 1)
        (fun _ => 1) (fun _ => 1) (fun _ => 1) (fun _ => 1) 2
        denidom_default_settings) ∧
    categoriesNonneg (calculate_estimate_avx2 (fun _ => 1) (fun _ => 1)
        (fun _ => 1) (fun _ => 1) (fun _ => 1) (fun _ => 1) 2
        denidom_default_settings) ∧
    categoriesNonneg (calculate_estimate_avx512 (fun _ => 1) (fun _ => 1)
        (fun _ => 1) (fun _ => 1) (fun _ => 1) (fun _ => 1) 2
        denidom_default_settings) ∧
    categoriesNonneg (calculate_estimate_auto ⟨fun _ _ => ⟨0, 0, 0, 0⟩⟩
        (fun _ => 1) (fun _ => 1) (fun _ => 1) (fun _ => 1) (fun _ => 1)
        (fun _ => 1) 2 denidom_default_settings) :=
  claim_C9_category_nonneg ⟨fun _ _ => ⟨0, 0, 0, 0⟩⟩ (fun _ => 1) (fun _ => 1)
    (fun _ => 1) (fun _ => 1) (fun _ => 1) (fun _ => 1) 2
    denidom_default_settings (by decide) (by decide) (by decide) (by decide)
    (by decide) (by decide) (by norm_num [denidom_default_settings])
    (by norm_num [denidom_default_settings])
    (by norm_num [denidom_default_settings])
    (by norm_num [denidom_default_settings])

/-- C10: the elementwise kernels write only to results[0..count): every
element of the results buffer at an index at or beyond count is returned
unchanged; the input arrays are read only functions of the embedding and
are never written. -/
theorem claim_C10_items_frame (q c k : ℕ → ℚ) (buf : ℕ → ℚ) (count j : ℕ)
    (h : count ≤ j) :
    calculate_items_avx2 q c k buf count j = buf j ∧
    calculate_items_avx512 q c k buf count j = buf j :=
  ⟨calculate_items_avx2_frame q c k buf count j h,
   calculate_items_avx512_frame q c k buf count j h⟩

/-- Witness for C10: with count 5, index 6 of the results buffer keeps
its old value 99 under both kernels. -/
theorem claim_C10_items_frame_witness :
    calculate_items_avx2 (fun i => (i : ℚ)) (fun _ => 1) (fun _ => 10)
        (fun _ => 99) 5 6 = 99 ∧
    calculate_items_avx512 (fun i => (i : ℚ)) (fun _ => 1) (fun _ => 10)
        (fun _ => 99) 5 6 = 99 :=
  claim_C10_items_frame (fun i => (i : ℚ)) (fun _ => 1) (fun _ => 10)
    (fun _ => 99) 5 6 (by decide)
